import Mathlib

/-!
Shallow embedding of the run-orchestration and memory core of the agno
runtime: the `AgentMemory` aggregate (run history, message history,
user-memory cache, classify-then-write pipeline) from
`libs/agno/agno/memory/agent.py`, and the FastAPI sync router
(`libs/agno/agno/app/fastapi/sync_router.py`): the chat response streamers
and the `/runs` dispatcher.

Python conventions are modelled explicitly:
  * `Optional[T]` fields become `Option T`;
  * truthiness tests (`if x:`) on optional strings/lists are modelled by
    dedicated `…Truthy` functions (`None`, `""` and `[]` are falsy);
  * an exception raised inside a `try` block is an `Except.error` of the
    try-body function; the enclosing `except` clause is the outer match;
  * a Python local variable that may be read before assignment is an
    `Option`-typed register whose `none` state means *unbound*, and reading
    an unbound register produces an `UnboundLocalError`-style outcome.
-/

namespace Agno

/-- Truthiness of an optional string: `None` and `""` are falsy. -/
def optStrTruthy : Option String → Bool
  | none => false
  | some s => s ≠ ""

/-- Truthiness of an optional list: `None` and `[]` are falsy. -/
def optListTruthy {α : Type} : Option (List α) → Bool
  | none => false
  | some l => !l.isEmpty

/-! ## Messages, run responses and runs (`agno/models/message.py`, `agno/run/response.py`)

Only the fields the memory subsystem inspects are carried: `role`,
`content` and the provenance flag `from_history` for messages, and
`run_id` / `messages` for run responses. -/

structure Message where
  role : String
  content : Option String
  from_history : Bool := false
  deriving DecidableEq, Repr

structure RunResponse where
  run_id : Option String := none
  messages : Option (List Message) := none
  deriving DecidableEq, Repr

/-- `AgentRun`: one exchange turn kept in `AgentMemory.runs`. -/
structure AgentRun where
  message : Option Message := none
  messages : Option (List Message) := none
  response : Option RunResponse := none
  deriving DecidableEq, Repr

/-! ## `AgentMemory.add_run` -/

/-- Does `run.response and run.response.run_id == run_id` hold for an existing
entry?  (`run.response` is a pydantic model: truthy iff present; `run_id`
comparison is plain string equality against the incoming id.) -/
def runIdMatches (run : AgentRun) (run_id : String) : Bool :=
  match run.response with
  | none => false
  | some resp => resp.run_id == some run_id

/-- The `for i, run in enumerate(self.runs)` loop of `add_run`: replace the
first entry whose response matches `run_id`, else append. -/
def replaceOrAppendRun (runs : List AgentRun) (agent_run : AgentRun)
    (run_id : String) : List AgentRun :=
  match runs with
  | [] => [agent_run]
  | r :: rest =>
    if runIdMatches r run_id then agent_run :: rest
    else r :: replaceOrAppendRun rest agent_run run_id

/-- `AgentMemory.add_run`: process the run only if
`agent_run.response and agent_run.response.run_id` is truthy, then
replace-or-append by run id. -/
def add_run (runs : List AgentRun) (agent_run : AgentRun) : List AgentRun :=
  match agent_run.response with
  | none => runs
  | some resp =>
    match resp.run_id with
    | none => runs
    | some run_id =>
      if run_id = "" then runs
      else replaceOrAppendRun runs agent_run run_id

/-! ## `AgentMemory.add_system_message` -/

/-- `AgentMemory.add_system_message`: takes the current `messages` list and
the `update_system_message_on_change` flag, returns the new list. -/
def add_system_message (messages : List Message)
    (update_system_message_on_change : Bool) (message : Message)
    (system_message_role : String := "system") : List Message :=
  if messages.length = 0 then
    messages ++ [message]
  else
    match messages.findIdx? (fun m => m.role == system_message_role) with
    | some i =>
      if ((messages[i]?).map Message.content) ≠ some message.content
          && update_system_message_on_change then
        messages.set i message
      else
        messages
    | none => message :: messages

/-! ## `AgentMemory.get_message_pairs` -/

/-- Forward scan of `run.response.messages` for the first message that is not
flagged `from_history` and has role `user_role` (the first `for` loop with
`break`). -/
def firstUserMessage (msgs : List Message) (user_role : String) : Option Message :=
  match msgs with
  | [] => none
  | m :: rest =>
    if m.from_history then firstUserMessage rest user_role
    else if m.role == user_role then some m
    else firstUserMessage rest user_role

/-- Backward scan (`run.response.messages[::-1]`) for the first message that
is not flagged `from_history` and whose role is in `assistant_role`. -/
def lastAssistantMessage (msgs : List Message) (assistant_role : List String) :
    Option Message :=
  match msgs with
  | [] => none
  | m :: rest =>
    if m.from_history then lastAssistantMessage rest assistant_role
    else if assistant_role.contains m.role then some m
    else lastAssistantMessage rest assistant_role

/-- Per-run body of the `get_message_pairs` loop: a run contributes a pair
only when `run.response and run.response.messages` is truthy and both scans
succeed. -/
def messagePairOfRun (run : AgentRun) (user_role : String)
    (assistant_role : List String) : Option (Message × Message) :=
  match run.response with
  | none => none
  | some resp =>
    match resp.messages with
    | none => none
    | some msgs =>
      if msgs.isEmpty then none
      else
        match firstUserMessage msgs user_role,
              lastAssistantMessage msgs.reverse assistant_role with
        | some u, some a => some (u, a)
        | _, _ => none

/-- `AgentMemory.get_message_pairs`, with the default assistant role set
`["assistant", "model", "CHATBOT"]` supplied when the argument is `none`. -/
def get_message_pairs (runs : List AgentRun) (user_role : String := "user")
    (assistant_role : Option (List String) := none) :
    List (Message × Message) :=
  let roles := assistant_role.getD ["assistant", "model", "CHATBOT"]
  runs.filterMap (fun run => messagePairOfRun run user_role roles)

/-! ## Long-term memories and the classify-then-write pipeline

`load_user_memories`, `should_update_memory`, `update_memory` and
`aupdate_memory` from `agno/memory/agent.py`.  The collaborators
(classifier, manager, memory db) are external capabilities; their behaviour
is an environment of oracles.  Observable interactions are recorded as an
event trace: a classifier run, a manager run (the store write), or a store
read issued by `load_user_memories`. -/

/-- Retrieval policy (`agno/memory/memory.py`, `MemoryRetrieval`). -/
inductive MemoryRetrieval
  | last_n
  | first_n
  | semantic
  deriving DecidableEq, Repr

/-- A long-term memory record; only identity-relevant payload is kept. -/
structure Memory where
  memory : String
  deriving DecidableEq, Repr

/-- Observable interactions of the memory pipeline with its collaborators. -/
inductive MemEvent
  | classifierRun (input : String)
  | managerRun (input : String)
  | dbRead (sort : String)
  deriving DecidableEq, Repr

/-- Environment of collaborator oracles:
  * `classifier_answer input` — what `self.classifier.run(input)` returns
    (`none` models a `None` response);
  * `manager_response input` — what `self.manager.run(input)` returns;
  * `db_read` — outcome of `self.db.read_memories(...)`: an exception, or a
    list of rows each of which deserializes to a `Memory` or fails
    (`Memory.model_validate(row.memory)` raising). -/
structure MemoryEnv where
  classifier_answer : String → Option String
  manager_response : String → Option String
  db_read : Except String (List (Except String Memory))

/-- The mutable fields of `AgentMemory` that the pipeline touches.
`db`, `classifier` and `manager` record whether the corresponding
collaborator reference is set (`self.db is None` tests etc.). -/
structure AgentMemoryState where
  db : Bool
  retrieval : MemoryRetrieval := MemoryRetrieval.last_n
  memories : Option (List Memory) := none
  classifier : Bool := false
  manager : Bool := false
  updating_memory : Bool := false
  deriving DecidableEq, Repr

/-- The `try:` body of `load_user_memories`.  An `Except.error` is an
exception escaping the body (paired with the trace of store reads already
issued): either the db read raising, or the
`raise NotImplementedError("Semantic retrieval not yet supported.")` taken
when the retrieval policy is neither `last_n` nor `first_n`. -/
def load_user_memories_try (env : MemoryEnv) (s : AgentMemoryState) :
    Except (String × List MemEvent) (List (Except String Memory) × List MemEvent) :=
  if s.retrieval = MemoryRetrieval.last_n ∨ s.retrieval = MemoryRetrieval.first_n then
    let sort := if s.retrieval = MemoryRetrieval.first_n then "asc" else "desc"
    match env.db_read with
    | Except.error e => Except.error (e, [MemEvent.dbRead sort])
    | Except.ok rows => Except.ok (rows, [MemEvent.dbRead sort])
  else
    Except.error ("Semantic retrieval not yet supported.", [])

/-- `AgentMemory.load_user_memories`: returns immediately when no db is
configured; the `except Exception` clause logs and returns, leaving the
state untouched; on success it replaces `memories` wholesale with the rows
that deserialize, skipping the ones that raise. -/
def load_user_memories (env : MemoryEnv) (s : AgentMemoryState) :
    AgentMemoryState × List MemEvent :=
  if !s.db then (s, [])
  else
    match load_user_memories_try env s with
    | Except.error (_, tr) => (s, tr)
    | Except.ok (rows, tr) =>
      ({ s with memories := some (rows.filterMap Except.toOption) }, tr)

/-- Python's `str.lower()`, character by character (kernel-computable
counterpart of `String.toLower`). -/
def pyLower (s : String) : String :=
  String.mk (s.data.map Char.toLower)

/-- Normalisation of the classifier's textual answer:
`classifier_response and classifier_response.lower() == "yes"`. -/
def classifierSaysYes (resp : Option String) : Bool :=
  optStrTruthy resp && (pyLower (resp.getD "") == "yes")

/-- `AgentMemory.should_update_memory`: lazily constructs the classifier,
runs it once, and answers `true` iff the normalised response is `"yes"`. -/
def should_update_memory (env : MemoryEnv) (s : AgentMemoryState)
    (input : String) : AgentMemoryState × List MemEvent × Bool :=
  let s' := if s.classifier then s else { s with classifier := true }
  (s', [MemEvent.classifierRun input],
    classifierSaysYes (env.classifier_answer input))

/-- A Python value passed as `input`: a `str`, or anything else (including
`None`), for the `input is None or not isinstance(input, str)` guard. -/
inductive PyVal
  | str (s : String)
  | notStr
  deriving DecidableEq, Repr

/-- `AgentMemory.update_memory(input, force)`: returns the final state, the
event trace and the returned status string.  The `"Memory update not
required"` path returns without touching `updating_memory` again, exactly as
the source does. -/
def update_memory (env : MemoryEnv) (s : AgentMemoryState) (input : PyVal)
    (force : Bool := false) :
    AgentMemoryState × List MemEvent × Option String :=
  match input with
  | PyVal.notStr => (s, [], some "Invalid message content")
  | PyVal.str inp =>
    if !s.db then (s, [], some "Please provide a db to store memories")
    else
      let s₁ := { s with updating_memory := true }
      -- `force or self.should_update_memory(input=input)` short-circuits
      let (s₂, tr₁, goAhead) :=
        if force then (s₁, [], true)
        else should_update_memory env s₁ inp
      if !goAhead then (s₂, tr₁, some "Memory update not required")
      else
        let s₃ := { s₂ with manager := true }
        let resp := env.manager_response inp
        let (s₄, tr₂) := load_user_memories env s₃
        let s₅ := { s₄ with updating_memory := false }
        (s₅, tr₁ ++ [MemEvent.managerRun inp] ++ tr₂, resp)

/-- `AgentMemory.aupdate_memory`: the suspendable variant; the awaits are
transparent in the embedding, so its body mirrors `update_memory` line for
line (including the un-cleared flag on the "not required" path). -/
def aupdate_memory (env : MemoryEnv) (s : AgentMemoryState) (input : PyVal)
    (force : Bool := false) :
    AgentMemoryState × List MemEvent × Option String :=
  match input with
  | PyVal.notStr => (s, [], some "Invalid message content")
  | PyVal.str inp =>
    if !s.db then (s, [], some "Please provide a db to store memories")
    else
      let s₁ := { s with updating_memory := true }
      let (s₂, tr₁, goAhead) :=
        if force then (s₁, [], true)
        else should_update_memory env s₁ inp
      if !goAhead then (s₂, tr₁, some "Memory update not required")
      else
        let s₃ := { s₂ with manager := true }
        let resp := env.manager_response inp
        let (s₄, tr₂) := load_user_memories env s₃
        let s₅ := { s₄ with updating_memory := false }
        (s₅, tr₁ ++ [MemEvent.managerRun inp] ++ tr₂, resp)

/-! ## Chat response streamers (`agno/app/fastapi/sync_router.py`)

A chunk-producing run (`agent.run(..., stream=True)` /
`team.run(..., stream=True)`) is modelled as the list of chunks the
iterator successfully yields, followed by an optional exception message:
`failure = some e` means iterating past the listed chunks raises `e`
(this also covers the initial `run` call itself raising, with an empty
chunk list).  Each chunk carries its serialization (`to_json`). -/

structure Chunk where
  to_json : String
  deriving DecidableEq, Repr

/-- Run status (`agno/run/base.py`, `RunStatus`). -/
inductive RunStatus
  | pending
  | running
  | completed
  | error
  deriving DecidableEq, Repr

/-- Which kind of executable unit produced a stream. -/
inductive UnitKind
  | agent
  | team
  deriving DecidableEq, Repr

/-- An outbound serialized event: either one serialized chunk, or an
error-shaped event.  The agent streamer's error event is
`RunResponse(content=str(e), status=RunStatus.error)`; the team streamer's
is `TeamRunResponseErrorEvent(content=str(e))` (an error-kind event class;
modelled from the spec: distinct shapes per unit kind carrying the same
semantic fields, status=error and the failure text). -/
inductive OutEvent
  | chunk (json : String)
  | errorEvent (kind : UnitKind) (content : String) (status : RunStatus)
  deriving DecidableEq, Repr

/-- Is an outbound event an error-kind event? -/
def OutEvent.isError : OutEvent → Bool
  | OutEvent.chunk _ => false
  | OutEvent.errorEvent _ _ _ => true

/-- `agent_chat_response_streamer`: the `try`/`for`/`except` generator.
Each yielded chunk is serialized and emitted before the next is requested;
an exception during iteration is caught and converted into one terminal
error event, after which the generator returns. -/
def agent_chat_response_streamer (chunks : List Chunk)
    (failure : Option String) : List OutEvent :=
  match chunks with
  | [] =>
    match failure with
    | none => []
    | some e => [OutEvent.errorEvent UnitKind.agent e RunStatus.error]
  | c :: rest => OutEvent.chunk c.to_json :: agent_chat_response_streamer rest failure

/-- `team_chat_response_streamer`: same shape, emitting the team error
event. -/
def team_chat_response_streamer (chunks : List Chunk)
    (failure : Option String) : List OutEvent :=
  match chunks with
  | [] =>
    match failure with
    | none => []
    | some e => [OutEvent.errorEvent UnitKind.team e RunStatus.error]
  | c :: rest => OutEvent.chunk c.to_json :: team_chat_response_streamer rest failure

/-! ## The `/runs` dispatcher (`run_agent_or_team_or_workflow`)

The handler is embedded up to the point where it invokes an executable
unit's `run`: the result records which call was made (or which HTTP
exception / Python error escaped first).  File processing and JSON parsing
of `workflow_input` are collaborator oracles.  The locals
`base64_images`, `base64_audios`, `base64_videos` and `document_files` are
only assigned inside the `if files:` block, so they are modelled as
registers whose unbound state is observable: reading an unbound register
raises `UnboundLocalError`. -/

structure UploadFile where
  filename : Option String := none
  content_type : Option String := none
  deriving DecidableEq, Repr

structure AgentE where
  agent_id : String
  knowledge : Bool := false
  deriving DecidableEq, Repr

structure TeamE where
  team_id : String
  deriving DecidableEq, Repr

/-- Old-style (`Workflow`) vs new-style (`WorkflowV2`) workflows. -/
inductive WorkflowKind
  | legacy
  | v2
  deriving DecidableEq, Repr

structure WorkflowE where
  workflow_id : String
  kind : WorkflowKind := WorkflowKind.v2
  deriving DecidableEq, Repr

/-- Outcome of the opportunistic `json.loads(workflow_input)`:
a dict, some other JSON value, or a `JSONDecodeError` (input passed
through as raw text). -/
inductive ParsedWf
  | asDict
  | notDict
  | parseFail
  deriving DecidableEq, Repr

/-- Collaborator oracles of the dispatcher:
  * `agent_process` — `agent_process_file(files, agent)`: an HTTP exception
    (status, detail) or the three base64 media lists;
  * `team_process` — `team_process_file(files)`: an HTTP exception or the
    three media lists plus document files;
  * `parse_workflow_input` — result of `json.loads` on the raw input. -/
structure RouterEnv where
  agent_process : List UploadFile → AgentE →
    Except (Nat × String) (List String × List String × List String)
  team_process : List UploadFile →
    Except (Nat × String) (List String × List String × List String × List String)
  parse_workflow_input : String → ParsedWf

/-- The form/query parameters of a `POST /runs` request. -/
structure RunRequest where
  message : Option String := none
  stream : Bool := false
  monitor : Bool := false
  agent_id : Option String := none
  team_id : Option String := none
  workflow_id : Option String := none
  workflow_input : Option String := none
  session_id : Option String := none
  user_id : Option String := none
  files : Option (List UploadFile) := none

/-- The `run`/`arun` invocation the dispatcher hands off to. -/
inductive RunCall
  | agentRun (agent_id : String) (stream : Bool)
  | teamRun (team_id : String) (stream : Bool)
  | workflowRun (workflow_id : String) (stream : Bool)
  deriving DecidableEq, Repr

/-- What the handler produces:
  * `httpError` — an `HTTPException(status_code, detail)` raised before any
    run;
  * `unboundLocal` — an `UnboundLocalError` on the named local escaping the
    handler (surfaced as a transport-level 500);
  * `response` — a normal response (stream or JSON) produced by invoking
    the recorded run call;
  * `emptyResult` — the handler falls off the end and returns `None`. -/
inductive HandlerResult
  | httpError (status : Nat) (detail : String)
  | unboundLocal (name : String)
  | response (call : RunCall)
  | emptyResult
  deriving DecidableEq, Repr

/-- Reading a possibly-unbound Python local: `none` is the unbound state. -/
def localRead {α : Type} (reg : Option α) (name : String) : Except String α :=
  match reg with
  | none => Except.error name
  | some v => Except.ok v

/-- The `if agent_id and agents:` lookup block of the handler, which can
raise 404/400.  Note the truthiness guard: when the agents registry is
`None` or the empty list, the block is skipped entirely and no agent is
resolved. -/
def resolveAgent (agents : Option (List AgentE)) (req : RunRequest) :
    Except (Nat × String) (Option AgentE) :=
  if optStrTruthy req.agent_id && optListTruthy agents then
    match (agents.getD []).find? (fun a => some a.agent_id == req.agent_id) with
    | none => Except.error (404, "Agent not found")
    | some a =>
      if !optStrTruthy req.message then Except.error (400, "Message is required")
      else Except.ok (some a)
  else Except.ok none

/-- The `if team_id and teams:` lookup block. -/
def resolveTeam (teams : Option (List TeamE)) (req : RunRequest) :
    Except (Nat × String) (Option TeamE) :=
  if optStrTruthy req.team_id && optListTruthy teams then
    match (teams.getD []).find? (fun t => some t.team_id == req.team_id) with
    | none => Except.error (404, "Team not found")
    | some t =>
      if !optStrTruthy req.message then Except.error (400, "Message is required")
      else Except.ok (some t)
  else Except.ok none

/-- The `if workflow_id and workflows:` lookup block (the opportunistic
JSON parsing of `workflow_input` happens later, at dispatch). -/
def resolveWorkflow (workflows : Option (List WorkflowE)) (req : RunRequest) :
    Except (Nat × String) (Option WorkflowE) :=
  if optStrTruthy req.workflow_id && optListTruthy workflows then
    match (workflows.getD []).find? (fun w => some w.workflow_id == req.workflow_id) with
    | none => Except.error (404, "Workflow not found")
    | some w =>
      if !optStrTruthy req.workflow_input then Except.error (400, "Workflow input is required")
      else Except.ok (some w)
  else Except.ok none

/-- The three sequential lookup blocks of the handler, run in source order
(agent, then team, then workflow), each able to raise. -/
def resolveEntities (agents : Option (List AgentE)) (teams : Option (List TeamE))
    (workflows : Option (List WorkflowE)) (req : RunRequest) :
    Except (Nat × String) (Option AgentE × Option TeamE × Option WorkflowE) :=
  match resolveAgent agents req with
  | Except.error e => Except.error e
  | Except.ok agent =>
    match resolveTeam teams req with
    | Except.error e => Except.error e
    | Except.ok team =>
      match resolveWorkflow workflows req with
      | Except.error e => Except.error e
      | Except.ok workflow => Except.ok (agent, team, workflow)

/-- `run_agent_or_team_or_workflow`: selector validation, entity lookup,
file processing, then dispatch to the selected unit's `run`. -/
def run_handler (agents : Option (List AgentE)) (teams : Option (List TeamE))
    (workflows : Option (List WorkflowE)) (env : RouterEnv)
    (req : RunRequest) : HandlerResult :=
  let aid := optStrTruthy req.agent_id
  let tid := optStrTruthy req.team_id
  let wid := optStrTruthy req.workflow_id
  -- Only one of agent_id, team_id or workflow_id can be provided
  if (aid && tid) || (aid && wid) || (tid && wid) then
    HandlerResult.httpError 400 "Only one of agent_id, team_id or workflow_id can be provided"
  else if !aid && !tid && !wid then
    HandlerResult.httpError 400 "One of agent_id, team_id or workflow_id must be provided"
  else
    match resolveEntities agents teams workflows req with
    | Except.error (st, detail) => HandlerResult.httpError st detail
    | Except.ok (agent, team, workflow) =>
      -- (monitor assignment has no observable effect here)
      -- `if files:` block: the only place the media locals get bound
      let processed :
          Except (Nat × String)
            (Option (List String) × Option (List String) × Option (List String) ×
              Option (List String)) :=
        if optListTruthy req.files then
          match agent with
          | some a =>
            match env.agent_process (req.files.getD []) a with
            | Except.error e => Except.error e
            | Except.ok (imgs, auds, vids) =>
              Except.ok (some imgs, some auds, some vids, none)
          | none =>
            match team with
            | some _ =>
              match env.team_process (req.files.getD []) with
              | Except.error e => Except.error e
              | Except.ok (imgs, auds, vids, docs) =>
                Except.ok (some imgs, some auds, some vids, some docs)
            | none => Except.ok (none, none, none, none)
        else Except.ok (none, none, none, none)
      match processed with
      | Except.error (st, detail) => HandlerResult.httpError st detail
      | Except.ok (base64_images, base64_audios, base64_videos, document_files) =>
        match agent with
        | some a =>
          -- both stream and blocking agent paths read the three media locals
          (match localRead base64_images "base64_images" with
           | Except.error n => HandlerResult.unboundLocal n
           | Except.ok _ =>
             match localRead base64_audios "base64_audios" with
             | Except.error n => HandlerResult.unboundLocal n
             | Except.ok _ =>
               match localRead base64_videos "base64_videos" with
               | Except.error n => HandlerResult.unboundLocal n
               | Except.ok _ =>
                 HandlerResult.response (RunCall.agentRun a.agent_id req.stream))
        | none =>
          match team with
          | some t =>
            (match localRead base64_images "base64_images" with
             | Except.error n => HandlerResult.unboundLocal n
             | Except.ok _ =>
               match localRead base64_audios "base64_audios" with
               | Except.error n => HandlerResult.unboundLocal n
               | Except.ok _ =>
                 match localRead base64_videos "base64_videos" with
                 | Except.error n => HandlerResult.unboundLocal n
                 | Except.ok _ =>
                   match localRead document_files "document_files" with
                   | Except.error n => HandlerResult.unboundLocal n
                   | Except.ok _ =>
                     HandlerResult.response (RunCall.teamRun t.team_id req.stream))
          | none =>
            match workflow with
            | some w =>
              -- legacy: deep-copied instance is run; v2: run directly —
              -- both invoke the workflow's run (the opportunistic
              -- `json.loads` only selects kwargs vs positional form)
              let _ := env.parse_workflow_input (req.workflow_input.getD "")
              HandlerResult.response (RunCall.workflowRun w.workflow_id req.stream)
            | none => HandlerResult.emptyResult

/-! ## Lemmas about `add_run` -/

theorem runIdMatches_eq_true_iff {x : AgentRun} {rid : String} :
    runIdMatches x rid = true ↔
      ∃ resp, x.response = some resp ∧ resp.run_id = some rid := by
  unfold runIdMatches
  cases hx : x.response with
  | none => simp
  | some resp =>
    simp only [beq_iff_eq]
    constructor
    · intro h; exact ⟨resp, rfl, h⟩
    · rintro ⟨resp', hr, hid⟩
      cases hr
      exact hid

theorem runIdMatches_false_of_ne {x : AgentRun} {rid rid' : String}
    (h : runIdMatches x rid = true) (hne : rid ≠ rid') :
    runIdMatches x rid' = false := by
  rcases runIdMatches_eq_true_iff.mp h with ⟨resp, hx, hid⟩
  simp [runIdMatches, hx, hid, hne]

theorem replaceOrAppendRun_of_no_match {runs : List AgentRun}
    {ar : AgentRun} {rid : String}
    (h : ∀ r ∈ runs, runIdMatches r rid = false) :
    replaceOrAppendRun runs ar rid = runs ++ [ar] := by
  induction runs with
  | nil => rfl
  | cons r rest ih =>
    have hr : runIdMatches r rid = false := h r (List.mem_cons_self r rest)
    simp only [replaceOrAppendRun, hr, Bool.false_eq_true, if_false, List.cons_append,
      List.cons.injEq, true_and]
    exact ih (fun x hx => h x (List.mem_cons_of_mem r hx))

theorem replaceOrAppendRun_first_match {l₁ l₂ : List AgentRun}
    {r ar : AgentRun} {rid : String}
    (h₁ : ∀ x ∈ l₁, runIdMatches x rid = false)
    (hr : runIdMatches r rid = true) :
    replaceOrAppendRun (l₁ ++ r :: l₂) ar rid = l₁ ++ ar :: l₂ := by
  induction l₁ with
  | nil => simp [replaceOrAppendRun, hr]
  | cons x rest ih =>
    have hx : runIdMatches x rid = false := h₁ x (List.mem_cons_self x rest)
    simp only [List.cons_append, replaceOrAppendRun, hx, Bool.false_eq_true, if_false,
      List.cons.injEq, true_and]
    exact ih (fun y hy => h₁ y (List.mem_cons_of_mem x hy))

theorem countP_replaceOrAppendRun_other {runs : List AgentRun}
    {ar : AgentRun} {rid : String} {p : AgentRun → Bool}
    (h_ar : p ar = false)
    (h_m : ∀ r, runIdMatches r rid = true → p r = false) :
    (replaceOrAppendRun runs ar rid).countP p = runs.countP p := by
  induction runs with
  | nil => simp [replaceOrAppendRun, List.countP_cons, h_ar]
  | cons r rest ih =>
    cases hr : runIdMatches r rid with
    | true =>
      simp only [replaceOrAppendRun, hr, if_true]
      simp [List.countP_cons, h_ar, h_m r hr]
    | false =>
      simp only [replaceOrAppendRun, hr, Bool.false_eq_true, if_false]
      simp [List.countP_cons, ih]

theorem countP_replaceOrAppendRun_le {runs : List AgentRun}
    {ar : AgentRun} {rid : String} {resp : RunResponse}
    (h₁ : ar.response = some resp) (h₂ : resp.run_id = some rid)
    (h : ∀ rid', runs.countP (fun x => runIdMatches x rid') ≤ 1) :
    ∀ rid', (replaceOrAppendRun runs ar rid).countP (fun x => runIdMatches x rid') ≤ 1 := by
  have h_ar : runIdMatches ar rid = true :=
    runIdMatches_eq_true_iff.mpr ⟨resp, h₁, h₂⟩
  intro rid'
  by_cases hrid : rid = rid'
  · subst hrid
    -- count of entries matching `rid` after the operation stays at most 1:
    -- a replacement keeps the count, an append brings it from 0 to 1
    have key : ∀ l : List AgentRun,
        l.countP (fun x => runIdMatches x rid) ≤ 1 →
        (replaceOrAppendRun l ar rid).countP (fun x => runIdMatches x rid) ≤ 1 := by
      intro l
      induction l with
      | nil =>
        intro _
        simp [replaceOrAppendRun, List.countP_cons, h_ar]
      | cons r rest ih =>
        intro hc
        rw [List.countP_cons] at hc
        cases hr : runIdMatches r rid with
        | true =>
          simp only [hr, if_true] at hc
          simp only [replaceOrAppendRun, hr, if_true, List.countP_cons, h_ar]
          omega
        | false =>
          simp only [hr, Bool.false_eq_true, if_false] at hc
          simp only [replaceOrAppendRun, hr, Bool.false_eq_true, if_false,
            List.countP_cons]
          have := ih (by omega)
          omega
    exact key runs (h rid)
  · have h_ar' : runIdMatches ar rid' = false := runIdMatches_false_of_ne h_ar hrid
    rw [countP_replaceOrAppendRun_other h_ar'
      (fun r hrm => runIdMatches_false_of_ne hrm hrid)]
    exact h rid'

theorem add_run_preserves_unique (runs : List AgentRun) (ar : AgentRun)
    (h : ∀ rid', runs.countP (fun x => runIdMatches x rid') ≤ 1) :
    ∀ rid', (add_run runs ar).countP (fun x => runIdMatches x rid') ≤ 1 := by
  cases har : ar.response with
  | none => simpa [add_run, har] using h
  | some resp =>
    cases hid : resp.run_id with
    | none => simpa [add_run, har, hid] using h
    | some rid =>
      by_cases he : rid = ""
      · simpa [add_run, har, hid, he] using h
      · have hc := countP_replaceOrAppendRun_le har hid h
        simpa [add_run, har, hid, he] using hc

theorem foldl_add_run_unique (ars : List AgentRun) :
    ∀ runs, (∀ rid', runs.countP (fun x => runIdMatches x rid') ≤ 1) →
    ∀ rid', ((ars.foldl add_run runs).countP (fun x => runIdMatches x rid')) ≤ 1 := by
  induction ars with
  | nil => intro runs h; exact h
  | cons ar rest ih =>
    intro runs h
    exact ih (add_run runs ar) (add_run_preserves_unique runs ar h)

/-- C1: Idempotent run insertion.  For every runs list and every `AgentRun`:
if the run has no response, or its response's run identifier is `None` or
empty, `add_run` is a no-op; if the response carries a run identifier and a
first entry with a matching identifier exists, that entry is replaced in
place (list length unchanged, position preserved, surviving entry equal to
the newly added run); if no entry matches, the run is appended; when the
runs list held at most one entry per run identifier, it still does after
`add_run`; and every runs list reachable by `add_run` from empty holds at
most one entry per run identifier. -/
theorem claimC1_add_run_idempotent_insertion (runs : List Agno.AgentRun)
    (ar : Agno.AgentRun) :
    (ar.response = none → Agno.add_run runs ar = runs) ∧
    (∀ resp, ar.response = some resp → Agno.optStrTruthy resp.run_id = false →
      Agno.add_run runs ar = runs) ∧
    (∀ resp rid, ar.response = some resp → resp.run_id = some rid → rid ≠ "" →
      ((∀ r ∈ runs, Agno.runIdMatches r rid = false) →
        Agno.add_run runs ar = runs ++ [ar]) ∧
      (∀ l₁ r l₂, runs = l₁ ++ r :: l₂ →
        (∀ x ∈ l₁, Agno.runIdMatches x rid = false) →
        Agno.runIdMatches r rid = true →
        Agno.add_run runs ar = l₁ ++ ar :: l₂ ∧
        (Agno.add_run runs ar).length = runs.length ∧
        (Agno.add_run runs ar)[l₁.length]? = some ar) ∧
      ((∀ rid', runs.countP (fun x => Agno.runIdMatches x rid') ≤ 1) →
        ∀ rid', (Agno.add_run runs ar).countP (fun x => Agno.runIdMatches x rid') ≤ 1)) ∧
    (∀ ars : List Agno.AgentRun, ∀ rid',
      ((ars.foldl Agno.add_run []).countP (fun x => Agno.runIdMatches x rid')) ≤ 1) := by
  refine ⟨?_, ?_, ?_, ?_⟩
  · intro h
    simp [Agno.add_run, h]
  · intro resp h ht
    cases hid : resp.run_id with
    | none => simp [Agno.add_run, h, hid]
    | some rid =>
      have hempty : rid = "" := by simpa [Agno.optStrTruthy, hid] using ht
      simp [Agno.add_run, h, hid, hempty]
  · intro resp rid h hid hne
    have hadd : Agno.add_run runs ar = Agno.replaceOrAppendRun runs ar rid := by
      simp [Agno.add_run, h, hid, hne]
    refine ⟨?_, ?_, ?_⟩
    · intro hnm
      rw [hadd]
      exact Agno.replaceOrAppendRun_of_no_match hnm
    · intro l₁ r l₂ hdec h₁ hr
      subst hdec
      rw [hadd, Agno.replaceOrAppendRun_first_match h₁ hr]
      refine ⟨rfl, by simp, ?_⟩
      rw [List.getElem?_append_right (le_refl _)]
      simp
    · intro hinv
      rw [hadd]
      exact Agno.countP_replaceOrAppendRun_le h hid hinv
  · intro ars
    exact Agno.foldl_add_run_unique ars [] (fun _ => by simp)

/-- Witness for C1: replacing the entry for run id `"r1"` in a two-run list
keeps the length and position and installs the second-added run. -/
theorem claimC1_add_run_idempotent_insertion_witness :
    Agno.add_run
      [{ response := some { run_id := some "r1", messages := none },
         message := some { role := "user", content := some "first", from_history := false },
         messages := none },
       { response := some { run_id := some "r2", messages := none },
         message := none, messages := none }]
      { response := some { run_id := some "r1", messages := none },
        message := some { role := "user", content := some "second", from_history := false },
        messages := none } =
      [{ response := some { run_id := some "r1", messages := none },
         message := some { role := "user", content := some "second", from_history := false },
         messages := none },
       { response := some { run_id := some "r2", messages := none },
         message := none, messages := none }] := by
  have h := (claimC1_add_run_idempotent_insertion
    [{ response := some { run_id := some "r1", messages := none },
       message := some { role := "user", content := some "first", from_history := false },
       messages := none },
     { response := some { run_id := some "r2", messages := none },
       message := none, messages := none }]
    { response := some { run_id := some "r1", messages := none },
      message := some { role := "user", content := some "second", from_history := false },
      messages := none }).2.2.1 { run_id := some "r1", messages := none } "r1"
    rfl rfl (by decide)
  exact (h.2.1 []
    { response := some { run_id := some "r1", messages := none },
      message := some { role := "user", content := some "first", from_history := false },
      messages := none }
    [{ response := some { run_id := some "r2", messages := none },
       message := none, messages := none }]
    rfl (by simp) (by decide)).1

/-- C9: System-message placement.  On an empty history the message lands at
position 0; on a non-empty history with an existing message of the system
role (first such index `i`), the existing message is replaced in place iff
its content differs and update-on-change is enabled, and is left untouched
otherwise — in particular identical content never mutates it; on a
non-empty history with no system-role message, the new message is inserted
at position 0, never appended. -/
theorem claimC9_system_message_placement (messages : List Agno.Message)
    (flag : Bool) (message : Agno.Message) (role : String) :
    (messages = [] → Agno.add_system_message messages flag message role = [message]) ∧
    (∀ i, messages ≠ [] →
      messages.findIdx? (fun m => m.role == role) = some i →
      ((messages[i]?.map Agno.Message.content = some message.content ∨ flag = false) →
        Agno.add_system_message messages flag message role = messages) ∧
      (messages[i]?.map Agno.Message.content ≠ some message.content → flag = true →
        Agno.add_system_message messages flag message role = messages.set i message)) ∧
    (messages ≠ [] →
      messages.findIdx? (fun m => m.role == role) = none →
      Agno.add_system_message messages flag message role = message :: messages) := by
  refine ⟨?_, ?_, ?_⟩
  · intro h
    subst h
    rfl
  · intro i hne hidx
    have hlen : ¬messages.length = 0 := by
      simpa [List.length_eq_zero] using hne
    constructor
    · intro hsame
      unfold Agno.add_system_message
      rw [if_neg hlen, hidx]
      rcases hsame with hsame | hsame
      · simp [hsame]
      · simp [hsame]
    · intro hdiff hflag
      unfold Agno.add_system_message
      rw [if_neg hlen, hidx]
      simp [hdiff, hflag]
  · intro hne hidx
    have hlen : ¬messages.length = 0 := by
      simpa [List.length_eq_zero] using hne
    unfold Agno.add_system_message
    rw [if_neg hlen, hidx]

/-- Witness for C9: a second system message with identical content leaves a
one-element history untouched even with update-on-change enabled, and a
differing message replaces it in place. -/
theorem claimC9_system_message_placement_witness :
    Agno.add_system_message
      [{ role := "system", content := some "rules", from_history := false }] true
      { role := "system", content := some "rules", from_history := false } "system" =
      [{ role := "system", content := some "rules", from_history := false }] ∧
    Agno.add_system_message
      [{ role := "system", content := some "rules", from_history := false }] true
      { role := "system", content := some "new rules", from_history := false } "system" =
      [{ role := "system", content := some "new rules", from_history := false }] := by
  constructor
  · exact ((claimC9_system_message_placement
      [{ role := "system", content := some "rules", from_history := false }] true
      { role := "system", content := some "rules", from_history := false } "system").2.1
      0 (by decide) (by decide)).1 (Or.inl (by decide))
  · exact ((claimC9_system_message_placement
      [{ role := "system", content := some "rules", from_history := false }] true
      { role := "system", content := some "new rules", from_history := false } "system").2.1
      0 (by decide) (by decide)).2 (by decide) rfl

/-! ## Lemmas about `get_message_pairs` -/

theorem firstUserMessage_eq_find (msgs : List Message) (ur : String) :
    firstUserMessage msgs ur =
      msgs.find? (fun m => !m.from_history && m.role == ur) := by
  induction msgs with
  | nil => rfl
  | cons m rest ih =>
    cases hf : m.from_history with
    | true => simp [firstUserMessage, hf, List.find?_cons, ih]
    | false =>
      cases hr : m.role == ur with
      | true => simp [firstUserMessage, hf, hr, List.find?_cons]
      | false => simp [firstUserMessage, hf, hr, List.find?_cons, ih]

theorem lastAssistantMessage_eq_find (msgs : List Message) (roles : List String) :
    lastAssistantMessage msgs roles =
      msgs.find? (fun m => !m.from_history && roles.contains m.role) := by
  induction msgs with
  | nil => rfl
  | cons m rest ih =>
    cases hf : m.from_history with
    | true => simp [lastAssistantMessage, hf, List.find?_cons, ih]
    | false =>
      by_cases hr : m.role ∈ roles
      · simp [lastAssistantMessage, hf, hr, List.find?_cons]
      · simp [lastAssistantMessage, hf, hr, List.find?_cons, ih]

/-- The user message of the spec's pair-extraction example. -/
def msgUserHi : Message := { role := "user", content := some "hi", from_history := false }

/-- The assistant message of the spec's pair-extraction example. -/
def msgAssistantHello : Message :=
  { role := "assistant", content := some "hello", from_history := false }

/-- The trailing user message of the spec's pair-extraction example. -/
def msgUserOk : Message := { role := "user", content := some "ok", from_history := false }

/-- A run holding the example messages `[user:"hi", assistant:"hello",
user:"ok"]`. -/
def examplePairRun : AgentRun :=
  { message := none, messages := none,
    response := some { run_id := some "r1",
                       messages := some [msgUserHi, msgAssistantHello, msgUserOk] } }

/-- C10: Pair extraction.  The forward scan picks the first non-history
message with the user role, the backward scan the first non-history message
(in backward order) whose role is in the assistant set; a run contributes a
pair only when both exist; pairs preserve run order (the extraction
distributes over appending run lists); the default assistant set is
`["assistant", "model", "CHATBOT"]`; and on the example run with assistant
roles `["assistant"]` the extracted pair is `(user:"hi", assistant:"hello")`. -/
theorem claimC10_pair_extraction :
    (∀ msgs ur, Agno.firstUserMessage msgs ur =
      msgs.find? (fun m => !m.from_history && m.role == ur)) ∧
    (∀ msgs roles, Agno.lastAssistantMessage msgs roles =
      msgs.find? (fun m => !m.from_history && roles.contains m.role)) ∧
    (∀ (m₀ : Option Agno.Message) (ml : Option (List Agno.Message))
        (rid : Option String) (msgs : List Agno.Message) (ur : String)
        (roles : List String),
      Agno.messagePairOfRun
        { message := m₀, messages := ml,
          response := some { run_id := rid, messages := some msgs } } ur roles =
        match msgs.find? (fun m => !m.from_history && m.role == ur),
              msgs.reverse.find? (fun m => !m.from_history && roles.contains m.role) with
        | some u, some a => some (u, a)
        | _, _ => none) ∧
    (∀ runs₁ runs₂ ur roles,
      Agno.get_message_pairs (runs₁ ++ runs₂) ur roles =
        Agno.get_message_pairs runs₁ ur roles ++ Agno.get_message_pairs runs₂ ur roles) ∧
    (∀ runs ur, Agno.get_message_pairs runs ur none =
      runs.filterMap (fun run =>
        Agno.messagePairOfRun run ur ["assistant", "model", "CHATBOT"])) ∧
    Agno.get_message_pairs [Agno.examplePairRun] "user" (some ["assistant"]) =
      [(Agno.msgUserHi, Agno.msgAssistantHello)] := by
  refine ⟨Agno.firstUserMessage_eq_find, Agno.lastAssistantMessage_eq_find, ?_, ?_, ?_, ?_⟩
  · intro m₀ ml rid msgs ur roles
    cases msgs with
    | nil => rfl
    | cons m rest =>
      simp only [Agno.messagePairOfRun, List.isEmpty_cons, Bool.false_eq_true, if_false,
        Agno.firstUserMessage_eq_find, Agno.lastAssistantMessage_eq_find]
  · intro runs₁ runs₂ ur roles
    simp [Agno.get_message_pairs, List.filterMap_append]
  · intro runs ur
    rfl
  · rfl

/-! ## Lemmas about the response streamers -/

theorem agent_chat_response_streamer_eq (chunks : List Chunk) (failure : Option String) :
    agent_chat_response_streamer chunks failure =
      chunks.map (fun c => OutEvent.chunk c.to_json) ++
        (match failure with
         | none => []
         | some e => [OutEvent.errorEvent UnitKind.agent e RunStatus.error]) := by
  induction chunks with
  | nil => cases failure <;> rfl
  | cons c rest ih => simp [agent_chat_response_streamer, ih]

theorem team_chat_response_streamer_eq (chunks : List Chunk) (failure : Option String) :
    team_chat_response_streamer chunks failure =
      chunks.map (fun c => OutEvent.chunk c.to_json) ++
        (match failure with
         | none => []
         | some e => [OutEvent.errorEvent UnitKind.team e RunStatus.error]) := by
  induction chunks with
  | nil => cases failure <;> rfl
  | cons c rest ih => simp [team_chat_response_streamer, ih]

theorem countP_isError_chunks_append (l : List Chunk) (tail : List OutEvent) :
    ((l.map fun c => OutEvent.chunk c.to_json) ++ tail).countP OutEvent.isError =
      tail.countP OutEvent.isError := by
  induction l with
  | nil => rfl
  | cons c rest ih => simp [List.countP_cons, OutEvent.isError, ih]

theorem dropWhile_isError_chunks_append (l : List Chunk) (tail : List OutEvent) :
    ((l.map fun c => OutEvent.chunk c.to_json) ++ tail).dropWhile (fun ev => !ev.isError) =
      tail.dropWhile (fun ev => !ev.isError) := by
  induction l with
  | nil => rfl
  | cons c rest ih => simp [List.dropWhile, OutEvent.isError, ih]

/-- C2: Streaming error containment.  When iterating the underlying run
raises after yielding `chunks`, both response streamers emit every earlier
chunk serialized in order (one event per chunk), followed by exactly one
terminal error-kind event carrying the exception's message with status
error, and nothing after it; the streamers are total functions (the
exception never escapes), and without a failure no error event is emitted. -/
theorem claimC2_streaming_error_containment (chunks : List Agno.Chunk) (e : String) :
    (Agno.agent_chat_response_streamer chunks (some e) =
      chunks.map (fun c => Agno.OutEvent.chunk c.to_json) ++
        [Agno.OutEvent.errorEvent Agno.UnitKind.agent e Agno.RunStatus.error]) ∧
    ((Agno.agent_chat_response_streamer chunks (some e)).countP Agno.OutEvent.isError = 1) ∧
    ((Agno.agent_chat_response_streamer chunks (some e)).getLast? =
      some (Agno.OutEvent.errorEvent Agno.UnitKind.agent e Agno.RunStatus.error)) ∧
    ((Agno.agent_chat_response_streamer chunks (some e)).dropWhile (fun ev => !ev.isError) =
      [Agno.OutEvent.errorEvent Agno.UnitKind.agent e Agno.RunStatus.error]) ∧
    (Agno.agent_chat_response_streamer chunks none =
      chunks.map (fun c => Agno.OutEvent.chunk c.to_json)) ∧
    (Agno.team_chat_response_streamer chunks (some e) =
      chunks.map (fun c => Agno.OutEvent.chunk c.to_json) ++
        [Agno.OutEvent.errorEvent Agno.UnitKind.team e Agno.RunStatus.error]) ∧
    ((Agno.team_chat_response_streamer chunks (some e)).countP Agno.OutEvent.isError = 1) ∧
    ((Agno.team_chat_response_streamer chunks (some e)).getLast? =
      some (Agno.OutEvent.errorEvent Agno.UnitKind.team e Agno.RunStatus.error)) ∧
    ((Agno.team_chat_response_streamer chunks (some e)).dropWhile (fun ev => !ev.isError) =
      [Agno.OutEvent.errorEvent Agno.UnitKind.team e Agno.RunStatus.error]) ∧
    (Agno.team_chat_response_streamer chunks none =
      chunks.map (fun c => Agno.OutEvent.chunk c.to_json)) := by
  have ha := Agno.agent_chat_response_streamer_eq chunks (some e)
  have ht := Agno.team_chat_response_streamer_eq chunks (some e)
  refine ⟨ha, ?_, ?_, ?_, ?_, ht, ?_, ?_, ?_, ?_⟩
  · rw [ha, Agno.countP_isError_chunks_append]
    rfl
  · rw [ha]
    exact List.getLast?_concat _
  · rw [ha, Agno.dropWhile_isError_chunks_append]
    rfl
  · simpa using Agno.agent_chat_response_streamer_eq chunks none
  · rw [ht, Agno.countP_isError_chunks_append]
    rfl
  · rw [ht]
    exact List.getLast?_concat _
  · rw [ht, Agno.dropWhile_isError_chunks_append]
    rfl
  · simpa using Agno.team_chat_response_streamer_eq chunks none

/-! ## Lemmas about the memory pipeline -/

/-- Is an event a classifier invocation? -/
def MemEvent.isClassifierRun : MemEvent → Bool
  | MemEvent.classifierRun _ => true
  | _ => false

/-- Is an event a manager run (the store write)? -/
def MemEvent.isManagerRun : MemEvent → Bool
  | MemEvent.managerRun _ => true
  | _ => false

theorem load_user_memories_trace_shape (env : MemoryEnv) (s : AgentMemoryState) :
    (load_user_memories env s).2 = [] ∨
      ∃ sort, (load_user_memories env s).2 = [MemEvent.dbRead sort] := by
  unfold load_user_memories load_user_memories_try
  cases hdb : s.db with
  | false => simp
  | true =>
    by_cases hr : s.retrieval = MemoryRetrieval.last_n ∨ s.retrieval = MemoryRetrieval.first_n
    · simp only [hr, if_true, Bool.not_true, Bool.false_eq_true, if_false]
      cases env.db_read with
      | error e => simp
      | ok rows => simp
    · simp only [hr, if_false, Bool.not_true, Bool.false_eq_true]
      simp

theorem load_user_memories_no_classifier_event (env : MemoryEnv) (s : AgentMemoryState) :
    (load_user_memories env s).2.countP MemEvent.isClassifierRun = 0 ∧
    (load_user_memories env s).2.countP MemEvent.isManagerRun = 0 := by
  rcases load_user_memories_trace_shape env s with h | ⟨sort, h⟩ <;>
    simp [h, List.countP_cons, MemEvent.isClassifierRun, MemEvent.isManagerRun]

/-- C5: Memory-write gating.  With a configured store and `force = False`,
`update_memory` consults the classifier exactly once, and the classifier
event opens the trace (so it precedes any store write); when the normalised
classifier answer is not `"yes"`, no manager run (store write) occurs and
the call returns `"Memory update not required"`; with `force = True` the
classifier is never consulted and the manager runs; non-string input or a
missing store return a diagnostic string with an empty interaction trace. -/
theorem claimC5_memory_write_gating (env : Agno.MemoryEnv)
    (s : Agno.AgentMemoryState) (inp : String) (force : Bool) :
    (s.db = true →
      (Agno.update_memory env s (Agno.PyVal.str inp) false).2.1.countP
          Agno.MemEvent.isClassifierRun = 1 ∧
      (Agno.update_memory env s (Agno.PyVal.str inp) false).2.1.head? =
        some (Agno.MemEvent.classifierRun inp)) ∧
    (s.db = true →
      Agno.classifierSaysYes (env.classifier_answer inp) = false →
      (Agno.update_memory env s (Agno.PyVal.str inp) false).2.1.countP
          Agno.MemEvent.isManagerRun = 0 ∧
      (Agno.update_memory env s (Agno.PyVal.str inp) false).2.2 =
        some "Memory update not required") ∧
    (s.db = true →
      (Agno.update_memory env s (Agno.PyVal.str inp) true).2.1.countP
          Agno.MemEvent.isClassifierRun = 0 ∧
      (Agno.update_memory env s (Agno.PyVal.str inp) true).2.1.countP
          Agno.MemEvent.isManagerRun = 1) ∧
    (Agno.update_memory env s Agno.PyVal.notStr force =
      (s, [], some "Invalid message content")) ∧
    (s.db = false →
      Agno.update_memory env s (Agno.PyVal.str inp) force =
        (s, [], some "Please provide a db to store memories")) := by
  have h1 : ∀ st, (Agno.load_user_memories env st).2.countP
      Agno.MemEvent.isClassifierRun = 0 :=
    fun st => (Agno.load_user_memories_no_classifier_event env st).1
  have h2 : ∀ st, (Agno.load_user_memories env st).2.countP
      Agno.MemEvent.isManagerRun = 0 :=
    fun st => (Agno.load_user_memories_no_classifier_event env st).2
  refine ⟨?_, ?_, ?_, rfl, ?_⟩
  · intro hdb
    cases hyes : Agno.classifierSaysYes (env.classifier_answer inp) with
    | false =>
      simp [Agno.update_memory, Agno.should_update_memory, hdb, hyes,
        List.countP_cons, Agno.MemEvent.isClassifierRun]
    | true =>
      constructor
      · simp [Agno.update_memory, Agno.should_update_memory, hdb, hyes,
          List.countP_append, List.countP_cons, Agno.MemEvent.isClassifierRun, h1]
      · simp [Agno.update_memory, Agno.should_update_memory, hdb, hyes]
  · intro hdb hno
    simp [Agno.update_memory, Agno.should_update_memory, hdb, hno,
      List.countP_cons, Agno.MemEvent.isManagerRun]
  · intro hdb
    constructor
    · simp [Agno.update_memory, hdb, List.countP_append, List.countP_cons,
        Agno.MemEvent.isClassifierRun, h1]
    · simp [Agno.update_memory, hdb, List.countP_append, List.countP_cons,
        Agno.MemEvent.isManagerRun, h2]
  · intro hdb
    simp [Agno.update_memory, hdb]

/-- Witness for C5: with a configured store and a classifier that answers
`"no"`, updating from `"I like jazz"` consults the classifier once,
performs no store write and reports that no update is required. -/
theorem claimC5_memory_write_gating_witness :
    ({ db := true } : Agno.AgentMemoryState).db = true ∧
    Agno.classifierSaysYes (some "no") = false ∧
    (Agno.update_memory
        { classifier_answer := fun _ => some "no",
          manager_response := fun _ => some "ok",
          db_read := Except.ok [] }
        { db := true } (Agno.PyVal.str "I like jazz") false).2.2 =
      some "Memory update not required" := by
  refine ⟨rfl, by decide, ?_⟩
  exact ((claimC5_memory_write_gating
    { classifier_answer := fun _ => some "no",
      manager_response := fun _ => some "ok",
      db_read := Except.ok [] }
    { db := true } "I like jazz" false).2.1 rfl (by decide)).2

/-- A memory environment whose classifier always consents, with a healthy
(empty) store. -/
def consentingEnv : MemoryEnv :=
  { classifier_answer := fun _ => some "yes",
    manager_response := fun _ => some "ok",
    db_read := Except.ok [] }

/-- A memory environment whose store read raises. -/
def failingReadEnv : MemoryEnv :=
  { classifier_answer := fun _ => some "yes",
    manager_response := fun _ => some "ok",
    db_read := Except.error "db connection failed" }

/-- A memory environment whose classifier answers `"no"`. -/
def decliningEnv : MemoryEnv :=
  { classifier_answer := fun _ => some "no",
    manager_response := fun _ => some "ok",
    db_read := Except.ok [] }

/-- An `AgentMemory` with a configured store, default recency retrieval and
no load performed yet. -/
def freshMemoryState : AgentMemoryState :=
  { db := true, retrieval := MemoryRetrieval.last_n, memories := none,
    classifier := false, manager := false, updating_memory := false }

/-- An `AgentMemory` with a configured store whose retrieval policy is the
unsupported semantic mode. -/
def semanticMemoryState : AgentMemoryState :=
  { db := true, retrieval := MemoryRetrieval.semantic, memories := none,
    classifier := false, manager := false, updating_memory := false }

/-- C6: with a configured store and semantic retrieval, the `try` body of
`load_user_memories` does raise `NotImplementedError("Semantic retrieval
not yet supported.")` without issuing any store read, but the function's own
blanket `except Exception` catches it: the call returns normally with the
state unchanged and an empty interaction trace, so no error ever reaches
the caller (contradicting the claim that it propagates). -/
theorem claimC6_semantic_mode_error_swallowed :
    load_user_memories_try consentingEnv semanticMemoryState =
      Except.error ("Semantic retrieval not yet supported.", []) ∧
    load_user_memories consentingEnv semanticMemoryState =
      (semanticMemoryState, []) := by
  constructor
  · rfl
  · rfl

/-- Counterexample for C7: with a configured store whose read raises and no
prior load, `load_user_memories` returns with `memories` still `None` — not
the empty sequence the claim asserts. -/
theorem claimC7_counterexample :
    (load_user_memories failingReadEnv freshMemoryState).1.memories = none ∧
    ¬(load_user_memories failingReadEnv freshMemoryState).1.memories =
        some ([] : List Memory) := by
  refine ⟨rfl, ?_⟩
  intro h
  rw [(rfl :
    (load_user_memories failingReadEnv freshMemoryState).1.memories = none)] at h
  exact Option.noConfusion h

/-- C7 (amended): a store read failure during `load_user_memories` is caught
and never propagates, and the method returns with the whole state — in
particular `memories` — unchanged (so a pre-load `None` stays `None`); only
a successful read replaces `memories`, and then with an actual (possibly
empty) sequence. -/
theorem claimC7_read_failure_containment (env : MemoryEnv)
    (s : AgentMemoryState) :
    (∀ e, s.db = true → env.db_read = Except.error e →
      load_user_memories env s = (s, (load_user_memories env s).2)) ∧
    (∀ rows, s.db = true →
      (s.retrieval = MemoryRetrieval.last_n ∨ s.retrieval = MemoryRetrieval.first_n) →
      env.db_read = Except.ok rows →
      (load_user_memories env s).1.memories =
        some (rows.filterMap Except.toOption)) := by
  constructor
  · intro e hdb hread
    unfold load_user_memories load_user_memories_try
    by_cases hr : s.retrieval = MemoryRetrieval.last_n ∨ s.retrieval = MemoryRetrieval.first_n
    · simp [hdb, hr, hread]
    · simp [hdb, hr]
  · intro rows hdb hr hread
    unfold load_user_memories load_user_memories_try
    simp [hdb, hr, hread]

/-- Witness for C7 (amended): on a failing read the state is returned
unchanged, and on a successful empty read `memories` becomes the empty
sequence. -/
theorem claimC7_read_failure_containment_witness :
    load_user_memories failingReadEnv freshMemoryState =
      (freshMemoryState, (load_user_memories failingReadEnv freshMemoryState).2) ∧
    (load_user_memories consentingEnv freshMemoryState).1.memories =
      some ([] : List Memory) := by
  constructor
  · exact (claimC7_read_failure_containment failingReadEnv freshMemoryState).1
      "db connection failed" rfl rfl
  · exact (claimC7_read_failure_containment consentingEnv freshMemoryState).2
      [] rfl (Or.inl rfl) rfl

/-- C8: the `"Memory update not required"` return path of `update_memory`
(and of `aupdate_memory`) leaves `updating_memory` set to `true` after the
call returns — the flag is only cleared on the path that actually runs the
manager, so the claim's "cleared on every return path" fails on the
classification-declined path. -/
theorem claimC8_updating_memory_flag_left_set :
    freshMemoryState.updating_memory = false ∧
    (update_memory decliningEnv freshMemoryState
        (PyVal.str "I like jazz") false).2.2 = some "Memory update not required" ∧
    (update_memory decliningEnv freshMemoryState
        (PyVal.str "I like jazz") false).1.updating_memory = true ∧
    (aupdate_memory decliningEnv freshMemoryState
        (PyVal.str "I like jazz") false).1.updating_memory = true ∧
    (update_memory decliningEnv freshMemoryState
        (PyVal.str "I like jazz") true).1.updating_memory = false := by
  refine ⟨rfl, by decide, by decide, by decide, by decide⟩

/-! ## Concrete router fixtures -/

/-- A router environment whose file processors succeed with empty media
lists and whose JSON parse always fails (input passed through raw). -/
def trivialRouterEnv : RouterEnv :=
  { agent_process := fun _ _ => Except.ok ([], [], []),
    team_process := fun _ => Except.ok ([], [], [], []),
    parse_workflow_input := fun _ => ParsedWf.parseFail }

/-- A registered agent. -/
def exampleAgent : AgentE := { agent_id := "a1", knowledge := false }

/-- A registered team. -/
def exampleTeam : TeamE := { team_id := "t1" }

/-- A registered new-style workflow. -/
def exampleWorkflow : WorkflowE := { workflow_id := "w1", kind := WorkflowKind.v2 }

/-- A non-streaming `/runs` request selecting agent `"a1"` with a non-empty
message and no uploaded files. -/
def zeroFileAgentRequest : RunRequest :=
  { message := some "hi", stream := false, monitor := false,
    agent_id := some "a1", team_id := none, workflow_id := none,
    workflow_input := none, session_id := none, user_id := none, files := none }

/-- The same request targeting team `"t1"`. -/
def zeroFileTeamRequest : RunRequest :=
  { message := some "hi", stream := false, monitor := false,
    agent_id := none, team_id := some "t1", workflow_id := none,
    workflow_input := none, session_id := none, user_id := none, files := none }

/-- A zero-file request targeting workflow `"w1"` with workflow input. -/
def zeroFileWorkflowRequest : RunRequest :=
  { message := none, stream := false, monitor := false,
    agent_id := none, team_id := none, workflow_id := some "w1",
    workflow_input := some "topic", session_id := none, user_id := none,
    files := none }

/-- Counterexample for C3: selecting `agent_id = "a1"` when the configured
agents registry is the empty list (teams being the populated registry) does
not fail with 404 — the lookup block is skipped by the `if agent_id and
agents:` truthiness guard, every entity stays unresolved, and the handler
falls through to a `None` (empty 200) response without invoking any run. -/
theorem claimC3_counterexample :
    run_handler (some []) (some [exampleTeam]) none trivialRouterEnv
        zeroFileAgentRequest = HandlerResult.emptyResult ∧
    ¬run_handler (some []) (some [exampleTeam]) none trivialRouterEnv
        zeroFileAgentRequest = HandlerResult.httpError 404 "Agent not found" := by
  constructor
  · rfl
  · intro h
    rw [(rfl : run_handler (some []) (some [exampleTeam]) none trivialRouterEnv
      zeroFileAgentRequest = HandlerResult.emptyResult)] at h
    exact HandlerResult.noConfusion h

/-- C3 (amended): selector validation runs before anything else — more than
one or none of agent/team/workflow set yields 400; when the selected kind's
registry is configured non-empty and the identifier names no entity there,
the request fails 404; a resolved agent/team with an empty or absent
message fails 400, and a resolved workflow without workflow input fails
400; in each failing case the result is the HTTP error itself, so no run is
invoked.  When the selected kind's registry is absent or empty, however,
the lookup block is skipped: the request neither fails nor executes — it
falls through to an empty result. -/
theorem claimC3_dispatcher_validation (agents : Option (List Agno.AgentE))
    (teams : Option (List Agno.TeamE)) (workflows : Option (List Agno.WorkflowE))
    (env : Agno.RouterEnv) (req : Agno.RunRequest) :
    (((Agno.optStrTruthy req.agent_id && Agno.optStrTruthy req.team_id) ||
      (Agno.optStrTruthy req.agent_id && Agno.optStrTruthy req.workflow_id) ||
      (Agno.optStrTruthy req.team_id && Agno.optStrTruthy req.workflow_id)) = true →
      Agno.run_handler agents teams workflows env req =
        Agno.HandlerResult.httpError 400
          "Only one of agent_id, team_id or workflow_id can be provided") ∧
    (Agno.optStrTruthy req.agent_id = false → Agno.optStrTruthy req.team_id = false →
      Agno.optStrTruthy req.workflow_id = false →
      Agno.run_handler agents teams workflows env req =
        Agno.HandlerResult.httpError 400
          "One of agent_id, team_id or workflow_id must be provided") ∧
    (Agno.optStrTruthy req.agent_id = true → Agno.optStrTruthy req.team_id = false →
      Agno.optStrTruthy req.workflow_id = false →
      Agno.optListTruthy agents = true →
      (agents.getD []).find? (fun a => some a.agent_id == req.agent_id) = none →
      Agno.run_handler agents teams workflows env req =
        Agno.HandlerResult.httpError 404 "Agent not found") ∧
    (Agno.optStrTruthy req.team_id = true → Agno.optStrTruthy req.agent_id = false →
      Agno.optStrTruthy req.workflow_id = false →
      Agno.optListTruthy teams = true →
      (teams.getD []).find? (fun t => some t.team_id == req.team_id) = none →
      Agno.run_handler agents teams workflows env req =
        Agno.HandlerResult.httpError 404 "Team not found") ∧
    (Agno.optStrTruthy req.workflow_id = true → Agno.optStrTruthy req.agent_id = false →
      Agno.optStrTruthy req.team_id = false →
      Agno.optListTruthy workflows = true →
      (workflows.getD []).find? (fun w => some w.workflow_id == req.workflow_id) = none →
      Agno.run_handler agents teams workflows env req =
        Agno.HandlerResult.httpError 404 "Workflow not found") ∧
    (∀ a, Agno.optStrTruthy req.agent_id = true → Agno.optStrTruthy req.team_id = false →
      Agno.optStrTruthy req.workflow_id = false →
      Agno.optListTruthy agents = true →
      (agents.getD []).find? (fun x => some x.agent_id == req.agent_id) = some a →
      Agno.optStrTruthy req.message = false →
      Agno.run_handler agents teams workflows env req =
        Agno.HandlerResult.httpError 400 "Message is required") ∧
    (∀ t, Agno.optStrTruthy req.team_id = true → Agno.optStrTruthy req.agent_id = false →
      Agno.optStrTruthy req.workflow_id = false →
      Agno.optListTruthy teams = true →
      (teams.getD []).find? (fun x => some x.team_id == req.team_id) = some t →
      Agno.optStrTruthy req.message = false →
      Agno.run_handler agents teams workflows env req =
        Agno.HandlerResult.httpError 400 "Message is required") ∧
    (∀ w, Agno.optStrTruthy req.workflow_id = true → Agno.optStrTruthy req.agent_id = false →
      Agno.optStrTruthy req.team_id = false →
      Agno.optListTruthy workflows = true →
      (workflows.getD []).find? (fun x => some x.workflow_id == req.workflow_id) = some w →
      Agno.optStrTruthy req.workflow_input = false →
      Agno.run_handler agents teams workflows env req =
        Agno.HandlerResult.httpError 400 "Workflow input is required") ∧
    (Agno.optStrTruthy req.agent_id = true → Agno.optStrTruthy req.team_id = false →
      Agno.optStrTruthy req.workflow_id = false →
      Agno.optListTruthy agents = false →
      Agno.run_handler agents teams workflows env req =
        Agno.HandlerResult.emptyResult) ∧
    (Agno.optStrTruthy req.team_id = true → Agno.optStrTruthy req.agent_id = false →
      Agno.optStrTruthy req.workflow_id = false →
      Agno.optListTruthy teams = false →
      Agno.run_handler agents teams workflows env req =
        Agno.HandlerResult.emptyResult) ∧
    (Agno.optStrTruthy req.workflow_id = true → Agno.optStrTruthy req.agent_id = false →
      Agno.optStrTruthy req.team_id = false →
      Agno.optListTruthy workflows = false →
      Agno.run_handler agents teams workflows env req =
        Agno.HandlerResult.emptyResult) := by
  refine ⟨?_, ?_, ?_, ?_, ?_, ?_, ?_, ?_, ?_, ?_, ?_⟩
  · intro h
    simp [Agno.run_handler, h]
  · intro h₁ h₂ h₃
    simp [Agno.run_handler, h₁, h₂, h₃]
  · intro h₁ h₂ h₃ hreg hfind
    simp [Agno.run_handler, Agno.resolveEntities, Agno.resolveAgent, h₁, h₂, h₃,
      hreg, hfind]
  · intro h₁ h₂ h₃ hreg hfind
    simp [Agno.run_handler, Agno.resolveEntities, Agno.resolveAgent,
      Agno.resolveTeam, h₁, h₂, h₃, hreg, hfind]
  · intro h₁ h₂ h₃ hreg hfind
    simp [Agno.run_handler, Agno.resolveEntities, Agno.resolveAgent,
      Agno.resolveTeam, Agno.resolveWorkflow, h₁, h₂, h₃, hreg, hfind]
  · intro a h₁ h₂ h₃ hreg hfind hmsg
    simp [Agno.run_handler, Agno.resolveEntities, Agno.resolveAgent, h₁, h₂, h₃,
      hreg, hfind, hmsg]
  · intro t h₁ h₂ h₃ hreg hfind hmsg
    simp [Agno.run_handler, Agno.resolveEntities, Agno.resolveAgent,
      Agno.resolveTeam, h₁, h₂, h₃, hreg, hfind, hmsg]
  · intro w h₁ h₂ h₃ hreg hfind hinp
    simp [Agno.run_handler, Agno.resolveEntities, Agno.resolveAgent,
      Agno.resolveTeam, Agno.resolveWorkflow, h₁, h₂, h₃, hreg, hfind, hinp]
  · intro h₁ h₂ h₃ hreg
    cases hf : Agno.optListTruthy req.files <;>
      simp [Agno.run_handler, Agno.resolveEntities, Agno.resolveAgent,
        Agno.resolveTeam, Agno.resolveWorkflow, h₁, h₂, h₃, hreg, hf]
  · intro h₁ h₂ h₃ hreg
    cases hf : Agno.optListTruthy req.files <;>
      simp [Agno.run_handler, Agno.resolveEntities, Agno.resolveAgent,
        Agno.resolveTeam, Agno.resolveWorkflow, h₁, h₂, h₃, hreg, hf]
  · intro h₁ h₂ h₃ hreg
    cases hf : Agno.optListTruthy req.files <;>
      simp [Agno.run_handler, Agno.resolveEntities, Agno.resolveAgent,
        Agno.resolveTeam, Agno.resolveWorkflow, h₁, h₂, h₃, hreg, hf]

/-- Witness for C3 (amended): an unknown agent id against a populated
registry yields the 404, and both selectors set yields the 400. -/
theorem claimC3_dispatcher_validation_witness :
    Agno.run_handler (some [Agno.exampleAgent]) none none Agno.trivialRouterEnv
      { Agno.zeroFileAgentRequest with agent_id := some "a2" } =
      Agno.HandlerResult.httpError 404 "Agent not found" ∧
    Agno.run_handler (some [Agno.exampleAgent]) (some [Agno.exampleTeam]) none
      Agno.trivialRouterEnv
      { Agno.zeroFileAgentRequest with team_id := some "t1" } =
      Agno.HandlerResult.httpError 400
        "Only one of agent_id, team_id or workflow_id can be provided" := by
  constructor
  · exact (claimC3_dispatcher_validation (some [Agno.exampleAgent]) none none
      Agno.trivialRouterEnv
      { Agno.zeroFileAgentRequest with agent_id := some "a2" }).2.2.1
      (by decide) (by decide) (by decide) (by decide) (by decide)
  · exact (claimC3_dispatcher_validation (some [Agno.exampleAgent])
      (some [Agno.exampleTeam]) none Agno.trivialRouterEnv
      { Agno.zeroFileAgentRequest with team_id := some "t1" }).1 (by decide)

/-- C4: Zero-attachment requests do NOT succeed on the agent and team
paths.  With no uploaded files the `if files:` block never assigns
`base64_images`/`base64_audios`/`base64_videos`, yet the agent and team
dispatch branches read them (`images=base64_images if base64_images else
None`), so the handler dies with an `UnboundLocalError` instead of
completing — in both the blocking and the streaming variants.  The workflow
path, which never touches those locals, completes; and the same agent
request with one attachment completes, isolating the zero-attachment case
as the failure trigger. -/
theorem claimC4_zero_attachment_unbound_local :
    Agno.run_handler (some [Agno.exampleAgent]) none none Agno.trivialRouterEnv
        Agno.zeroFileAgentRequest = Agno.HandlerResult.unboundLocal "base64_images" ∧
    Agno.run_handler (some [Agno.exampleAgent]) none none Agno.trivialRouterEnv
        { Agno.zeroFileAgentRequest with stream := true } =
      Agno.HandlerResult.unboundLocal "base64_images" ∧
    Agno.run_handler none (some [Agno.exampleTeam]) none Agno.trivialRouterEnv
        Agno.zeroFileTeamRequest = Agno.HandlerResult.unboundLocal "base64_images" ∧
    Agno.run_handler none none (some [Agno.exampleWorkflow]) Agno.trivialRouterEnv
        Agno.zeroFileWorkflowRequest =
      Agno.HandlerResult.response (Agno.RunCall.workflowRun "w1" false) ∧
    Agno.run_handler (some [Agno.exampleAgent]) none none Agno.trivialRouterEnv
        { Agno.zeroFileAgentRequest with
            files := some [{ filename := some "a.png", content_type := some "image/png" }] } =
      Agno.HandlerResult.response (Agno.RunCall.agentRun "a1" false) := by
  refine ⟨rfl, rfl, rfl, rfl, rfl⟩

end Agno
